import Mathlib

/-!
Shallow embedding of the voice-synthesis session manager of the
text-to-voice web application, together with theorems settling the
specification claims about it.

Sources embedded:
- `src/app/page.tsx` : `generateBrowserVoice` (voice resolution, parameter
  clamping, engine drive) and `generateVoice` (the generation orchestration,
  single-flight guard, progress reporting, history append);
- `src/components/VoiceHistory.tsx` : `deleteFromHistory`;
- `src/lib/audio-utils.ts` : `cleanTextForTTS`, `buildVoiceRequest`;
- the AudioPlayer component : `togglePlayPause` and the audio-element event
  handlers.

Modelling conventions: JavaScript numbers are modelled as `ℚ` (the operations
used - `Math.max`, `Math.min`, comparison - are exact on the rationals and
NaN never arises on the inputs considered); timestamps (`Date.now()`) as
`Nat`; asynchronous engine interaction as an explicit `EngineOutcome` oracle
plus an effect trace; React `setState` effects on the component state as
explicit state passing on a `SessionState` record.
-/

/-- `VoiceSettings` of `src/app/page.tsx`: the caller-supplied generation
parameters. -/
structure VoiceSettings where
  voice : String
  speed : ℚ
  pitch : ℚ
  stability : ℚ
  clarity : ℚ
deriving Repr, DecidableEq

/-- `GeneratedAudio` of `src/app/page.tsx`: one generated artifact. -/
structure GeneratedAudio where
  id : String
  text : String
  voice : String
  audioUrl : String
  duration : ℚ
  createdAt : Nat
  settings : VoiceSettings
deriving Repr, DecidableEq

/-- A concrete voice exposed by the host speech engine
(`window.speechSynthesis.getVoices()` entry; only `name` is consulted). -/
structure ConcreteVoice where
  name : String
deriving Repr, DecidableEq

/-- JavaScript `String.prototype.toLowerCase` on the character list (the
source compares voice names case-insensitively; all names involved are
ASCII, where JS and `Char.toLower` agree). -/
def jsToLower (s : String) : String :=
  String.mk (s.data.map Char.toLower)

/-- JavaScript `String.prototype.trim`: strip leading and trailing
whitespace. -/
def jsTrim (s : String) : String :=
  String.mk
    (((s.data.dropWhile Char.isWhitespace).reverse.dropWhile
      Char.isWhitespace).reverse)

/-- `needle` is a prefix of `hay` (character lists). -/
def charsStartWith : List Char → List Char → Bool
  | [], _ => true
  | _ :: _, [] => false
  | n :: ns, h :: hs => n == h && charsStartWith ns hs

/-- `needle` occurs as a contiguous substring of `hay` (character lists);
the semantics of JavaScript `String.prototype.includes`. -/
def charsContain (needle : List Char) : List Char → Bool
  | [] => needle.isEmpty
  | h :: hs => charsStartWith needle (h :: hs) || charsContain needle hs

/-- Case-insensitive substring test:
`hay.toLowerCase().includes(needle.toLowerCase())` in the source. -/
def lowerContains (hay needle : String) : Bool :=
  charsContain (jsToLower needle).data (jsToLower hay).data

/-- The `voiceMap` literal of `generateBrowserVoice`
(`src/app/page.tsx` lines 65-75). -/
def voiceMap (v : String) : Option (List String) :=
  if v = "rachel" then some ["female", "zira", "karen", "samantha"]
  else if v = "domi" then some ["female", "hazel", "victoria", "allison"]
  else if v = "bella" then some ["female", "eva", "fiona", "susan"]
  else if v = "antoni" then some ["male", "david", "daniel", "alex"]
  else if v = "elli" then some ["female", "mark", "kate", "veena"]
  else if v = "josh" then some ["male", "tom", "fred", "josh"]
  else if v = "arnold" then some ["male", "paul", "oliver", "ralph"]
  else if v = "adam" then some ["male", "mark", "aaron", "bruce"]
  else if v = "sam" then some ["male", "david", "sam", "junior"]
  else none

/-- `voiceMap[settings.voice] || ['female']` : the preference-fragment list,
defaulting to `['female']` for ids absent from the map. -/
def preferredVoices (v : String) : List String :=
  (voiceMap v).getD ["female"]

/-- `voices.find(voice => preferredVoices.some(pref =>
voice.name.toLowerCase().includes(pref.toLowerCase())))` -/
def findPreferred (prefs : List String) (voices : List ConcreteVoice) :
    Option ConcreteVoice :=
  voices.find? (fun voice => prefs.any (fun p => lowerContains voice.name p))

/-- `['rachel', 'domi', 'bella', 'elli'].includes(settings.voice)` -/
def isFemaleId (v : String) : Bool :=
  (["rachel", "domi", "bella", "elli"] : List String).contains v

/-- The gender fallback of `generateBrowserVoice` (lines 86-93): female ids
match names containing "female" or "woman"; all other ids match names
containing "male" or "man". -/
def genderFallback (v : String) (voices : List ConcreteVoice) :
    Option ConcreteVoice :=
  voices.find? (fun voice =>
    if isFemaleId v then
      lowerContains voice.name "female" || lowerContains voice.name "woman"
    else
      lowerContains voice.name "male" || lowerContains voice.name "man")

/-- The full voice-selection cascade of `generateBrowserVoice`
(lines 77-98): preferred fragments, then gender fallback, then the first
available voice. Returns `none` only on an empty voice list. -/
def resolveVoice (id : String) (voices : List ConcreteVoice) :
    Option ConcreteVoice :=
  match findPreferred (preferredVoices id) voices with
  | some v => some v
  | none =>
    match genderFallback id voices with
    | some v => some v
    | none => voices.head?

/-- JavaScript `x || d` on a number already known not to be NaN: `0` is the
only falsy value. -/
def jsOr (x d : ℚ) : ℚ :=
  if x = 0 then d else x

/-- `utterance.rate = Math.max(0.5, Math.min(2.0, settings.speed || 1.0))`
(`src/app/page.tsx` line 105). -/
def utteranceRate (s : VoiceSettings) : ℚ :=
  max (1/2) (min 2 (jsOr s.speed 1))

/-- `utterance.pitch = Math.max(0.5, Math.min(2.0, settings.pitch || 1.0))`
(`src/app/page.tsx` line 106). Note the upper clamp is `2.0`. -/
def utterancePitch (s : VoiceSettings) : ℚ :=
  max (1/2) (min 2 (jsOr s.pitch 1))

/- `cleanTextForTTS` of `src/lib/audio-utils.ts`, pass by pass. -/

/-- `.replace(/\s+/g, ' ')` : each maximal whitespace run becomes one
space. -/
def collapseWs : List Char → List Char
  | [] => []
  | [c] => if c.isWhitespace then [' '] else [c]
  | c :: d :: cs =>
    if c.isWhitespace then
      if d.isWhitespace then collapseWs (d :: cs)
      else ' ' :: collapseWs (d :: cs)
    else c :: collapseWs (d :: cs)

/-- Membership in the character class `[.!?]`. -/
def isSentencePunct (c : Char) : Bool :=
  c = '.' || c = '!' || c = '?'

/-- `.replace(/([.!?]){2,}/g, '$1')` : a run of two or more sentence
punctuation marks collapses to its last mark (`$1` is the final repetition
of the group). -/
def collapsePunct : List Char → List Char
  | [] => []
  | [c] => [c]
  | c :: d :: cs =>
    if isSentencePunct c && isSentencePunct d then collapsePunct (d :: cs)
    else c :: collapsePunct (d :: cs)

/-- `.replace(/([.!?])([A-Z])/g, '$1 $2')` : insert a space between a
sentence mark and an immediately following ASCII capital. -/
def spaceAfterPunct : List Char → List Char
  | [] => []
  | [c] => [c]
  | c :: d :: cs =>
    if isSentencePunct c && d.isUpper then c :: ' ' :: spaceAfterPunct (d :: cs)
    else c :: spaceAfterPunct (d :: cs)

/-- `.replace(/<[^>]*>/g, '')` : remove each `<...>` span not containing
`>`; a `<` with no later `>` matches nothing and is kept. -/
def stripTags : List Char → List Char
  | [] => []
  | c :: cs =>
    if c = '<' then
      if cs.contains '>' then
        stripTags (cs.dropWhile (fun d => !(d == '>'))).tail
      else c :: cs
    else c :: stripTags cs
termination_by l => l.length
decreasing_by
  · have key : ∀ (a : Char) (l : List Char),
        ((l.dropWhile (fun d => !(d == '>'))).tail).length < (a :: l).length := by
      intro a l
      have h1 : (l.dropWhile (fun d => !(d == '>'))).length ≤ l.length := by
        induction l with
        | nil => simp
        | cons b bs ih =>
          rw [List.dropWhile_cons]
          cases hb : (!(b == '>')) <;> simp <;> omega
      have h2 := (l.dropWhile (fun d => !(d == '>'))).length_tail
      simp only [List.length_cons]
      omega
    exact key _ _
  · simp only [List.length_cons]
    omega

/-- `cleanTextForTTS` of `src/lib/audio-utils.ts` (lines 138-150): the four
regex passes in source order, then `.trim()`. -/
def cleanTextForTTS (text : String) : String :=
  jsTrim (String.mk (stripTags (spaceAfterPunct (collapsePunct
    (collapseWs text.data)))))

/-- The `voice_settings` object built by `buildVoiceRequest`
(`src/lib/audio-utils.ts` lines 221-226). -/
structure VoiceRequestSettings where
  stability : ℚ
  similarity_boost : ℚ
  style : ℚ
  use_speaker_boost : Bool
deriving Repr, DecidableEq

/-- The request object built by `buildVoiceRequest` (the fields the claims
concern; the remaining fields of the literal are constants `[]`/`null`). -/
structure VoiceRequest where
  text : String
  voice : String
  model_id : String
  voice_settings : VoiceRequestSettings
deriving Repr, DecidableEq

/-- `buildVoiceRequest` of `src/lib/audio-utils.ts` (lines 214-233):
`stability` and `similarity_boost` are clamped to `[0,1]` around a `0.75`
falsy default; `voice` defaults to `"rachel"` on the empty string (the only
falsy string). -/
def buildVoiceRequest (text : String) (s : VoiceSettings) : VoiceRequest :=
  { text := cleanTextForTTS text
    voice := if s.voice = "" then "rachel" else s.voice
    model_id := "eleven_multilingual_v2"
    voice_settings :=
      { stability := max 0 (min 1 (jsOr s.stability (3/4)))
        similarity_boost := max 0 (min 1 (jsOr s.clarity (3/4)))
        style := 0
        use_speaker_boost := true } }

/-!
Generation orchestration (`generateVoice` and `generateBrowserVoice` of
`src/app/page.tsx`).

The React component state relevant to generation is collected in
`SessionState`; a call to `generateVoice` is modelled as a function from the
pre-call state to (result, post-completion state, effect trace), where the
trace records, in program order, every externally visible action: progress
values pushed to the UI, interactions with the speech-synthesis engine,
object-URL allocation/revocation, and the failure alert. The outcome of the
asynchronous engine call is an oracle argument (`EngineOutcome`), as are the
current timestamp, the duration reported by the audio element's
`loadedmetadata` event, and the object URL returned by
`URL.createObjectURL`.

The progress-heartbeat interval created at line 156 of `src/app/page.tsx`
is cleared at line 164 in the same synchronous segment, before control ever
returns to the event loop, so its 200 ms callback can never fire; the trace
therefore contains no heartbeat ticks.
-/

/-- Externally visible actions of the generation flow and of history
removal, in program order. -/
inductive Effect where
  | setProgress (v : ℚ)
  | engineCancel
  | engineSpeak (text : String) (voice : Option ConcreteVoice) (rate pitch volume : ℚ)
  | createObjectURL (url : String)
  | revokeObjectURL (url : String)
  | alertFailure
deriving Repr, DecidableEq

/-- Oracle for the asynchronous engine interaction inside
`generateBrowserVoice`: the host lacks `speechSynthesis`, the utterance
errors, or the utterance ends normally. -/
inductive EngineOutcome where
  | unsupported
  | failure (reason : String)
  | success
deriving Repr, DecidableEq

/-- The `audioInfo` object serialized into the stand-in blob on utterance
end (`src/app/page.tsx` lines 119-125). -/
structure AudioInfo where
  text : String
  voice : String
  settings : VoiceSettings
  duration : Nat
deriving Repr, DecidableEq

/-- `Math.ceil(text.length / 10)` (line 123). -/
def blobDuration (text : String) : Nat :=
  (text.data.length + 9) / 10

/-- `generateBrowserVoice` of `src/app/page.tsx` (lines 51-146): resolve a
concrete voice, clamp rate and pitch, cancel any current speech, speak, and
either reject (unsupported host or utterance error) or resolve with the
JSON stand-in blob. Returns the promise result and the engine-effect
trace. -/
def generateBrowserVoice (text : String) (settings : VoiceSettings)
    (voices : List ConcreteVoice) (o : EngineOutcome) :
    Except String AudioInfo × List Effect :=
  match o with
  | .unsupported => (.error "Speech synthesis not supported in this browser", [])
  | .failure reason =>
    (.error ("Speech synthesis failed: " ++ reason),
     [.engineCancel,
      .engineSpeak text (resolveVoice settings.voice voices)
        (utteranceRate settings) (utterancePitch settings) 1])
  | .success =>
    (.ok
      { text := text
        voice :=
          match resolveVoice settings.voice voices with
          | some v => if v.name = "" then "default" else v.name
          | none => "default"
        settings := settings
        duration := blobDuration text },
     [.engineCancel,
      .engineSpeak text (resolveVoice settings.voice voices)
        (utteranceRate settings) (utterancePitch settings) 1])

/-- The React component state of `HomePage` that the generation flow reads
and writes. -/
structure SessionState where
  text : String
  isGenerating : Bool
  generationProgress : ℚ
  currentAudio : Option GeneratedAudio
  audioHistory : List GeneratedAudio
  voiceSettings : VoiceSettings
deriving Repr, DecidableEq

/-- The spec's error taxonomy for the synchronous rejection branch of
`generateVoice`. -/
inductive GenError where
  | EmptyInput
  | GenerationInProgress
deriving Repr, DecidableEq

/-- Result of one `generateVoice` call. -/
inductive GenResult where
  | rejected (reasons : List GenError)
  | failed (message : String)
  | succeeded (a : GeneratedAudio)
deriving Repr, DecidableEq

/-- The guard `if (!text.trim() || isGenerating) return;` (line 149)
rejects exactly when this list is non-empty; the list records which of the
two disjuncts hold (the source's silent early return carries no error
value, so the rejection reason is the set of failed guard conditions). -/
def rejectReasons (s : SessionState) : List GenError :=
  (if jsTrim s.text = "" then [GenError.EmptyInput] else []) ++
    (if s.isGenerating then [GenError.GenerationInProgress] else [])

/-- `text.substring(0, 100) + (text.length > 100 ? "..." : "")`
(line 179). -/
def truncateText (t : String) : String :=
  String.mk (t.data.take 100) ++ (if t.data.length > 100 then "..." else "")

/-- `generateVoice` of `src/app/page.tsx` (lines 148-197). Arguments past
the state: the engine's available voices, the engine outcome oracle, the
`Date.now()` timestamp, the duration reported by `loadedmetadata`, and the
object URL returned by `URL.createObjectURL`. -/
def generateVoice (s : SessionState) (voices : List ConcreteVoice)
    (o : EngineOutcome) (now : Nat) (measuredDuration : ℚ) (url : String) :
    GenResult × SessionState × List Effect :=
  if jsTrim s.text = "" ∨ s.isGenerating then
    (.rejected (rejectReasons s), s, [])
  else
    match generateBrowserVoice s.text s.voiceSettings voices o with
    | (.error msg, engineEffs) =>
      (.failed msg,
       { s with isGenerating := false, generationProgress := 0 },
       [Effect.setProgress 0, Effect.setProgress 100] ++ engineEffs ++
         [Effect.alertFailure, Effect.setProgress 0])
    | (.ok _info, engineEffs) =>
      let newAudio : GeneratedAudio :=
        { id := toString now
          text := truncateText s.text
          voice := s.voiceSettings.voice
          audioUrl := url
          duration := measuredDuration
          createdAt := now
          settings := s.voiceSettings }
      (.succeeded newAudio,
       { s with
           currentAudio := some newAudio
           audioHistory := newAudio :: s.audioHistory.take 9
           isGenerating := false
           generationProgress := 0 },
       [Effect.setProgress 0, Effect.setProgress 100] ++ engineEffs ++
         [Effect.createObjectURL url, Effect.setProgress 0])

/-- `deleteFromHistory` of `src/components/VoiceHistory.tsx` (lines 63-72):
look the id up in the history and, if found, revoke its object URL. The
component cannot update the parent's state, so the returned sequence is the
input sequence. -/
def deleteFromHistory (audioId : String) (history : List GeneratedAudio) :
    List GeneratedAudio × List Effect :=
  match history.find? (fun a => a.id == audioId) with
  | some a => (history, [Effect.revokeObjectURL a.audioUrl])
  | none => (history, [])

/-!
Playback controller (the AudioPlayer component): `togglePlayPause` and the
audio-element event handlers. Commands sent to the audio primitive are
explicit; the `isPlaying` flag is written only by the primitive's own
events.
-/

/-- The AudioPlayer component state. -/
structure PlayerState where
  isPlaying : Bool
  currentTime : ℚ
  volume : ℚ
  playbackRate : ℚ
  isLoading : Bool
deriving Repr, DecidableEq

/-- Requests sent to the audio primitive. -/
inductive AudioCmd where
  | play
  | pause
  | setCurrentTime (t : ℚ)
deriving Repr, DecidableEq

/-- The state established by the AudioPlayer initialization effect when a
new artifact is bound (lines 271-281 of the component): loading begins,
position resets, `isPlaying` is false. `volume` and `playbackRate` keep
their current control values. -/
def selectAudio (volume playbackRate : ℚ) : PlayerState :=
  { isPlaying := false
    currentTime := 0
    volume := volume
    playbackRate := playbackRate
    isLoading := true }

/-- `togglePlayPause` (lines 321-331): early return while loading;
otherwise request `pause()` or `play()` on the primitive without touching
`isPlaying` (which mirrors the primitive's events). -/
def togglePlayPause (s : PlayerState) : PlayerState × List AudioCmd :=
  if s.isLoading then (s, [])
  else if s.isPlaying then (s, [AudioCmd.pause])
  else (s, [AudioCmd.play])

/-- The `loadeddata` handler: loading finished. -/
def onLoadedData (s : PlayerState) : PlayerState :=
  { s with isLoading := false }

/-- The `play` event handler. -/
def onPlayEvent (s : PlayerState) : PlayerState :=
  { s with isPlaying := true }

/-- The `pause` event handler. -/
def onPauseEvent (s : PlayerState) : PlayerState :=
  { s with isPlaying := false }

/-!
Helper predicates used by the theorems.
-/

/-- Effects that touch the speech-synthesis engine. -/
def isEngineEffect : Effect → Bool
  | .engineCancel => true
  | .engineSpeak _ _ _ _ _ => true
  | _ => false

/-- The progress value carried by a progress effect. -/
def progressOf : Effect → Option ℚ
  | .setProgress v => some v
  | _ => none

/-- The progress values emitted strictly before the first engine
interaction of a trace. -/
def progressBeforeEngine (effs : List Effect) : List ℚ :=
  (effs.takeWhile (fun e => !isEngineEffect e)).filterMap progressOf

/-- Effects that release a resource handle (`URL.revokeObjectURL`). -/
def isReleaseEffect : Effect → Bool
  | .revokeObjectURL _ => true
  | _ => false

/-- A trace releases no resource handle. -/
def noRelease (effs : List Effect) : Prop :=
  ∀ u : String, Effect.revokeObjectURL u ∉ effs

/-- The history ordering invariant: creation timestamps are non-increasing
front to back (most recent first). -/
def mostRecentFirst : List GeneratedAudio → Bool
  | [] => true
  | [_] => true
  | a :: b :: l => decide (b.createdAt ≤ a.createdAt) && mostRecentFirst (b :: l)

/-!
Concrete fixtures used by the witness and counterexample theorems.
-/

/-- A concrete generation-parameter record (integer-valued fields so that
every arithmetic step is literal). -/
def sampleSettings : VoiceSettings :=
  { voice := "rachel", speed := 1, pitch := 1, stability := 1, clarity := 1 }

/-- A concrete artifact stamped `i`. -/
def sampleArtifact (i : Nat) : GeneratedAudio :=
  { id := toString i
    text := "t"
    voice := "rachel"
    audioUrl := "blob:" ++ toString i
    duration := 1
    createdAt := i
    settings := sampleSettings }

/-- A concrete session state whose history already holds ten artifacts,
most recent first. -/
def sampleState10 : SessionState :=
  { text := "Hello world"
    isGenerating := false
    generationProgress := 0
    currentAudio := some (sampleArtifact 9)
    audioHistory :=
      [sampleArtifact 9, sampleArtifact 8, sampleArtifact 7, sampleArtifact 6,
       sampleArtifact 5, sampleArtifact 4, sampleArtifact 3, sampleArtifact 2,
       sampleArtifact 1, sampleArtifact 0]
    voiceSettings := sampleSettings }

/-!
Claim theorems.
-/

/-- C3: for every input text that is empty or whitespace-only, the generate
call is rejected with `EmptyInput`, the state (so the history and current
selection) is unchanged, and the effect trace is empty, so no
synthesis-engine interaction happens and no artifact is produced. -/
theorem emptyInput_rejected (s : SessionState) (voices : List ConcreteVoice)
    (o : EngineOutcome) (now : Nat) (dur : ℚ) (url : String)
    (hempty : jsTrim s.text = "") :
    generateVoice s voices o now dur url
      = (GenResult.rejected (rejectReasons s), s, []) ∧
    GenError.EmptyInput ∈ rejectReasons s := by
  constructor
  · simp [generateVoice, hempty]
  · simp [rejectReasons, hempty]

/-- Witness for `emptyInput_rejected` at a whitespace-only text. -/
theorem emptyInput_rejected_witness :
    jsTrim ({ sampleState10 with text := "  " } : SessionState).text = "" ∧
    (generateVoice { sampleState10 with text := "  " } [] EngineOutcome.success 100 2 "u"
      = (GenResult.rejected (rejectReasons { sampleState10 with text := "  " }),
         { sampleState10 with text := "  " }, []) ∧
     GenError.EmptyInput ∈ rejectReasons { sampleState10 with text := "  " }) :=
  ⟨by decide,
   emptyInput_rejected { sampleState10 with text := "  " } [] EngineOutcome.success
     100 2 "u" (by decide)⟩

/-- C9: while the player is still loading, `togglePlayPause` is a no-op: it
leaves the state unchanged and sends no command to the audio primitive; and
immediately after `select` the player is loading with `isPlaying = false`,
which stays false until the loaded event fires. -/
theorem toggle_noop_while_loading (s : PlayerState) (h : s.isLoading = true) :
    togglePlayPause s = (s, []) ∧
    ∀ v r : ℚ,
      (selectAudio v r).isLoading = true ∧
      (selectAudio v r).isPlaying = false ∧
      togglePlayPause (selectAudio v r) = (selectAudio v r, []) ∧
      (onLoadedData (selectAudio v r)).isLoading = false := by
  refine ⟨by simp [togglePlayPause, h], fun v r => ⟨rfl, rfl, ?_, rfl⟩⟩
  simp [togglePlayPause, selectAudio]

/-- Witness for `toggle_noop_while_loading` at a freshly selected player. -/
theorem toggle_noop_while_loading_witness :
    (selectAudio 1 1).isLoading = true ∧
    (togglePlayPause (selectAudio 1 1) = (selectAudio 1 1, []) ∧
     ∀ v r : ℚ,
       (selectAudio v r).isLoading = true ∧
       (selectAudio v r).isPlaying = false ∧
       togglePlayPause (selectAudio v r) = (selectAudio v r, []) ∧
       (onLoadedData (selectAudio v r)).isLoading = false) :=
  ⟨rfl, toggle_noop_while_loading (selectAudio 1 1) rfl⟩

/-- C7 (code evaluation): removing id "3" from a ten-element history
revokes the matching artifact's object URL, but the artifact remains in the
returned sequence, which is unchanged; removing an absent id changes
nothing and emits nothing. -/
theorem deleteFromHistory_keeps_sequence :
    (deleteFromHistory "3" sampleState10.audioHistory).1
      = sampleState10.audioHistory ∧
    (deleteFromHistory "3" sampleState10.audioHistory).2
      = [Effect.revokeObjectURL "blob:3"] ∧
    sampleArtifact 3 ∈ (deleteFromHistory "3" sampleState10.audioHistory).1 ∧
    (deleteFromHistory "absent" sampleState10.audioHistory)
      = (sampleState10.audioHistory, []) := by
  decide

/-- C8 (code evaluation): in a successful generation the progress values
emitted before the first engine interaction are exactly 0 then 100 - the
heartbeat interval is cancelled in the same synchronous segment it is
created in and 100 is pushed before the engine is driven - and the last
progress value of the whole call is the `finally` reset to 0, not 100. -/
theorem progress_reaches_100_before_engine :
    progressBeforeEngine
      (generateVoice sampleState10 [⟨"Zira"⟩] EngineOutcome.success 100 2
        "blob:new").2.2 = [0, 100] ∧
    (100 : ℚ) ∈ progressBeforeEngine
      (generateVoice sampleState10 [⟨"Zira"⟩] EngineOutcome.success 100 2
        "blob:new").2.2 ∧
    ¬((100 : ℚ) ≤ 90) ∧
    ((generateVoice sampleState10 [⟨"Zira"⟩] EngineOutcome.success 100 2
        "blob:new").2.2.filterMap progressOf).getLast? = some 0 := by
  decide

/-- C4 (counterexample): a caller-supplied pitch of 5.0 is used as 2.0, not
clamped into the claimed range [0.5, 1.5]. -/
theorem pitch_clamped_to_two_not_three_halves :
    utterancePitch
      { voice := "rachel", speed := 1, pitch := 5, stability := 1, clarity := 1 }
      = 2 ∧
    ¬(utterancePitch
      { voice := "rachel", speed := 1, pitch := 5, stability := 1, clarity := 1 }
      ≤ 3/2) := by
  constructor
  · norm_num [utterancePitch, jsOr, min_def, max_def]
  · norm_num [utterancePitch, jsOr, min_def, max_def]

/-- C4 (amended): the four numeric fields are clamped before use - speed to
[0.5, 2.0] and pitch to [0.5, 2.0] by `generateBrowserVoice`, stability and
clarity to [0, 1] by `buildVoiceRequest` - for every caller-supplied
settings value. -/
theorem settings_clamped_in_range (t : String) (s : VoiceSettings) :
    1/2 ≤ utteranceRate s ∧ utteranceRate s ≤ 2 ∧
    1/2 ≤ utterancePitch s ∧ utterancePitch s ≤ 2 ∧
    0 ≤ (buildVoiceRequest t s).voice_settings.stability ∧
    (buildVoiceRequest t s).voice_settings.stability ≤ 1 ∧
    0 ≤ (buildVoiceRequest t s).voice_settings.similarity_boost ∧
    (buildVoiceRequest t s).voice_settings.similarity_boost ≤ 1 := by
  refine ⟨le_max_left _ _, max_le (by norm_num) (min_le_left _ _),
    le_max_left _ _, max_le (by norm_num) (min_le_left _ _),
    le_max_left _ _, max_le (by norm_num) (min_le_left _ _),
    le_max_left _ _, max_le (by norm_num) (min_le_left _ _)⟩

/-- C10 (counterexample): with an unknown voice id and voices named
"Brian Male" and "Anna Woman" available, resolution returns "Brian Male"
(the gender fallback treats the unknown id as male), not the female/woman
match "Anna Woman" the claim predicts. -/
theorem unknown_id_resolves_to_male_voice :
    resolveVoice "unknown" [⟨"Brian Male"⟩, ⟨"Anna Woman"⟩]
      = some ⟨"Brian Male"⟩ ∧
    resolveVoice "unknown" [⟨"Brian Male"⟩, ⟨"Anna Woman"⟩]
      ≠ some ⟨"Anna Woman"⟩ := by
  decide

/-- C5: on a non-empty list of available concrete voices, voice resolution
always returns a member of the list; matches from the preference-fragment
scan take priority, then the gender fallback, and finally the first entry
of the list. -/
theorem resolveVoice_total (id : String) (voices : List ConcreteVoice)
    (hne : voices ≠ []) :
    (∃ v, resolveVoice id voices = some v ∧ v ∈ voices) ∧
    (∀ v, findPreferred (preferredVoices id) voices = some v →
      resolveVoice id voices = some v) ∧
    (findPreferred (preferredVoices id) voices = none →
      ∀ v, genderFallback id voices = some v → resolveVoice id voices = some v) ∧
    (findPreferred (preferredVoices id) voices = none →
      genderFallback id voices = none → resolveVoice id voices = voices.head?) := by
  refine ⟨?_, ?_, ?_, ?_⟩
  · cases hp : findPreferred (preferredVoices id) voices with
    | some v =>
      refine ⟨v, ?_, List.mem_of_find?_eq_some hp⟩
      unfold resolveVoice
      rw [hp]
    | none =>
      cases hg : genderFallback id voices with
      | some v =>
        refine ⟨v, ?_, List.mem_of_find?_eq_some hg⟩
        unfold resolveVoice
        rw [hp, hg]
      | none =>
        cases hv : voices with
        | nil => exact absurd hv hne
        | cons x xs =>
          refine ⟨x, ?_, List.mem_cons_self x xs⟩
          unfold resolveVoice
          rw [hv] at hp hg
          rw [hp, hg]
          rfl
  · intro v hv
    unfold resolveVoice
    rw [hv]
  · intro hp v hg
    unfold resolveVoice
    rw [hp, hg]
  · intro hp hg
    unfold resolveVoice
    rw [hp, hg]

/-- Witness for `resolveVoice_total` at an unknown id and a one-voice
list. -/
theorem resolveVoice_total_witness :
    ([⟨"Xyz"⟩] : List ConcreteVoice) ≠ [] ∧
    ((∃ v, resolveVoice "zzz" [⟨"Xyz"⟩] = some v ∧ v ∈ ([⟨"Xyz"⟩] : List ConcreteVoice)) ∧
     (∀ v, findPreferred (preferredVoices "zzz") [⟨"Xyz"⟩] = some v →
       resolveVoice "zzz" [⟨"Xyz"⟩] = some v) ∧
     (findPreferred (preferredVoices "zzz") [⟨"Xyz"⟩] = none →
       ∀ v, genderFallback "zzz" [⟨"Xyz"⟩] = some v →
         resolveVoice "zzz" [⟨"Xyz"⟩] = some v) ∧
     (findPreferred (preferredVoices "zzz") [⟨"Xyz"⟩] = none →
       genderFallback "zzz" [⟨"Xyz"⟩] = none →
       resolveVoice "zzz" [⟨"Xyz"⟩] = ([⟨"Xyz"⟩] : List ConcreteVoice).head?)) :=
  ⟨by decide, resolveVoice_total "zzz" [⟨"Xyz"⟩] (by decide)⟩

/-- C6: whenever the engine outcome is not success - the host lacks speech
synthesis or the utterance errors - the call leaves the prior history and
the current selection untouched and produces no artifact. -/
theorem failed_generation_preserves_state (s : SessionState)
    (voices : List ConcreteVoice) (o : EngineOutcome) (now : Nat) (dur : ℚ)
    (url : String) (ho : o ≠ EngineOutcome.success) :
    (generateVoice s voices o now dur url).2.1.audioHistory = s.audioHistory ∧
    (generateVoice s voices o now dur url).2.1.currentAudio = s.currentAudio ∧
    ∀ a : GeneratedAudio,
      (generateVoice s voices o now dur url).1 ≠ GenResult.succeeded a := by
  by_cases hguard : jsTrim s.text = "" ∨ s.isGenerating
  · simp [generateVoice, hguard]
  · cases o with
    | success => exact absurd rfl ho
    | unsupported => simp [generateVoice, hguard, generateBrowserVoice]
    | failure reason => simp [generateVoice, hguard, generateBrowserVoice]

/-- Witness for `failed_generation_preserves_state` at an engine error. -/
theorem failed_generation_preserves_state_witness :
    (EngineOutcome.failure "boom" ≠ EngineOutcome.success) ∧
    ((generateVoice sampleState10 [⟨"Zira"⟩] (EngineOutcome.failure "boom") 100 2
        "u").2.1.audioHistory = sampleState10.audioHistory ∧
     (generateVoice sampleState10 [⟨"Zira"⟩] (EngineOutcome.failure "boom") 100 2
        "u").2.1.currentAudio = sampleState10.currentAudio ∧
     ∀ a : GeneratedAudio,
       (generateVoice sampleState10 [⟨"Zira"⟩] (EngineOutcome.failure "boom") 100 2
         "u").1 ≠ GenResult.succeeded a) :=
  ⟨by decide,
   failed_generation_preserves_state sampleState10 [⟨"Zira"⟩]
     (EngineOutcome.failure "boom") 100 2 "u" (by decide)⟩

/-- C2: while a generation is in flight, a second generate call is rejected
with `GenerationInProgress` and changes nothing (it is not queued); and
from any state whose guard passes, the call - whatever its engine outcome,
success or failure - leaves a state from which a subsequent generate call
is not rejected. -/
theorem singleFlight_guard (s : SessionState) (voices : List ConcreteVoice)
    (o : EngineOutcome) (now : Nat) (dur : ℚ) (url : String)
    (hbusy : s.isGenerating = true) :
    generateVoice s voices o now dur url
      = (GenResult.rejected (rejectReasons s), s, []) ∧
    GenError.GenerationInProgress ∈ rejectReasons s ∧
    ∀ (t : SessionState) (o₂ o₃ : EngineOutcome) (n₂ n₃ : Nat) (d₂ d₃ : ℚ)
      (u₂ u₃ : String),
      rejectReasons t = [] →
      ∀ r : List GenError,
        (generateVoice (generateVoice t voices o₂ n₂ d₂ u₂).2.1 voices o₃ n₃ d₃
          u₃).1 ≠ GenResult.rejected r := by
  refine ⟨by simp [generateVoice, hbusy], by simp [rejectReasons, hbusy], ?_⟩
  intro t o₂ o₃ n₂ n₃ d₂ d₃ u₂ u₃ hready r
  have htext : ¬ jsTrim t.text = "" := by
    intro h
    simp [rejectReasons, h] at hready
  have hgen : t.isGenerating = false := by
    cases hg : t.isGenerating with
    | false => rfl
    | true =>
      exfalso
      simp [rejectReasons, hg] at hready
  cases o₂ <;> cases o₃ <;>
    simp [generateVoice, generateBrowserVoice, htext, hgen]

/-- Witness for `singleFlight_guard` at a busy session. -/
theorem singleFlight_guard_witness :
    ({ sampleState10 with isGenerating := true } : SessionState).isGenerating
      = true ∧
    (generateVoice { sampleState10 with isGenerating := true } [⟨"Zira"⟩]
        EngineOutcome.success 100 2 "u"
      = (GenResult.rejected
          (rejectReasons { sampleState10 with isGenerating := true }),
         { sampleState10 with isGenerating := true }, []) ∧
     GenError.GenerationInProgress
       ∈ rejectReasons { sampleState10 with isGenerating := true } ∧
     ∀ (t : SessionState) (o₂ o₃ : EngineOutcome) (n₂ n₃ : Nat) (d₂ d₃ : ℚ)
       (u₂ u₃ : String),
       rejectReasons t = [] →
       ∀ r : List GenError,
         (generateVoice (generateVoice t [⟨"Zira"⟩] o₂ n₂ d₂ u₂).2.1 [⟨"Zira"⟩]
           o₃ n₃ d₃ u₃).1 ≠ GenResult.rejected r) :=
  ⟨rfl,
   singleFlight_guard { sampleState10 with isGenerating := true } [⟨"Zira"⟩]
     EngineOutcome.success 100 2 "u" rfl⟩

/-- The executable `mostRecentFirst` agrees with the `Chain'` form of the
ordering invariant. -/
theorem mostRecentFirst_iff_chain (l : List GeneratedAudio) :
    mostRecentFirst l = true ↔
      List.Chain' (fun a b => b.createdAt ≤ a.createdAt) l := by
  induction l with
  | nil => simp [mostRecentFirst]
  | cons a t ih =>
    cases t with
    | nil => simp [mostRecentFirst]
    | cons b t2 =>
      simp only [mostRecentFirst, List.chain'_cons, Bool.and_eq_true,
        decide_eq_true_eq]
      exact and_congr Iff.rfl ih

/-- C1 (counterexample): a successful generation from a full ten-element
history evicts the oldest artifact but its effect trace contains no
`revokeObjectURL`, so the evicted artifact's resource handle is not
released. -/
theorem append_at_capacity_releases_nothing :
    sampleState10.audioHistory.length = 10 ∧
    (generateVoice sampleState10 [⟨"Zira"⟩] EngineOutcome.success 100 2
      "blob:new").2.1.audioHistory.length = 10 ∧
    sampleArtifact 0 ∈ sampleState10.audioHistory ∧
    sampleArtifact 0 ∉
      (generateVoice sampleState10 [⟨"Zira"⟩] EngineOutcome.success 100 2
        "blob:new").2.1.audioHistory ∧
    ((generateVoice sampleState10 [⟨"Zira"⟩] EngineOutcome.success 100 2
      "blob:new").2.2.filter isReleaseEffect) = [] := by
  decide

/-- C1 (amended): from a full ten-element, most-recent-first history, a
successful generation inserts the new artifact at the front, keeps the
length at ten by evicting exactly the one oldest element, preserves the
most-recent-first order, and releases no resource handle in the process. -/
theorem append_at_capacity_evicts_oldest (s : SessionState)
    (voices : List ConcreteVoice) (now : Nat) (dur : ℚ) (url : String)
    (hlen : s.audioHistory.length = 10)
    (htext : ¬ jsTrim s.text = "")
    (hidle : s.isGenerating = false)
    (hsorted : mostRecentFirst s.audioHistory = true)
    (hnow : ∀ a ∈ s.audioHistory, a.createdAt ≤ now) :
    ∃ newAudio : GeneratedAudio,
      newAudio.createdAt = now ∧
      (generateVoice s voices EngineOutcome.success now dur url).2.1.audioHistory
        = newAudio :: s.audioHistory.take 9 ∧
      (generateVoice s voices EngineOutcome.success now dur
        url).2.1.audioHistory.length = 10 ∧
      (s.audioHistory.drop 9).length = 1 ∧
      mostRecentFirst
        (generateVoice s voices EngineOutcome.success now dur
          url).2.1.audioHistory = true ∧
      noRelease (generateVoice s voices EngineOutcome.success now dur url).2.2 := by
  have hmain :
      (generateVoice s voices EngineOutcome.success now dur url).2.1.audioHistory
        = { id := toString now, text := truncateText s.text,
            voice := s.voiceSettings.voice, audioUrl := url, duration := dur,
            createdAt := now,
            settings := s.voiceSettings } :: s.audioHistory.take 9 := by
    simp [generateVoice, generateBrowserVoice, htext, hidle]
  refine ⟨_, rfl, hmain, ?_, ?_, ?_, ?_⟩
  · rw [hmain]
    simp [List.length_take, hlen]
  · simp [List.length_drop, hlen]
  · rw [hmain, mostRecentFirst_iff_chain]
    apply List.chain'_cons'.mpr
    constructor
    · intro y hy
      exact hnow y (List.take_subset 9 s.audioHistory (List.mem_of_mem_head? hy))
    · exact ((mostRecentFirst_iff_chain s.audioHistory).mp hsorted).take 9
  · intro u
    simp [generateVoice, generateBrowserVoice, htext, hidle]

/-- Witness for `append_at_capacity_evicts_oldest` at the ten-element
sample history. -/
theorem append_at_capacity_evicts_oldest_witness :
    (sampleState10.audioHistory.length = 10 ∧
     ¬ jsTrim sampleState10.text = "" ∧
     sampleState10.isGenerating = false ∧
     mostRecentFirst sampleState10.audioHistory = true ∧
     ∀ a ∈ sampleState10.audioHistory, a.createdAt ≤ 100) ∧
    ∃ newAudio : GeneratedAudio,
      newAudio.createdAt = 100 ∧
      (generateVoice sampleState10 [⟨"Zira"⟩] EngineOutcome.success 100 2
        "blob:new").2.1.audioHistory
        = newAudio :: sampleState10.audioHistory.take 9 ∧
      (generateVoice sampleState10 [⟨"Zira"⟩] EngineOutcome.success 100 2
        "blob:new").2.1.audioHistory.length = 10 ∧
      (sampleState10.audioHistory.drop 9).length = 1 ∧
      mostRecentFirst
        (generateVoice sampleState10 [⟨"Zira"⟩] EngineOutcome.success 100 2
          "blob:new").2.1.audioHistory = true ∧
      noRelease (generateVoice sampleState10 [⟨"Zira"⟩] EngineOutcome.success
        100 2 "blob:new").2.2 :=
  ⟨⟨by decide, by decide, by decide, by decide, by decide⟩,
   append_at_capacity_evicts_oldest sampleState10 [⟨"Zira"⟩] 100 2 "blob:new"
     (by decide) (by decide) (by decide) (by decide) (by decide)⟩

/-- C10 (amended): a voice id absent from the preference map resolves with
the preference list exactly `["female"]` - so the preferred scan returns the
first available voice whose name contains "female" case-insensitively -
and in the gender fallback such an id is treated as male, matching names
containing "male" or "man", before falling back to the first voice of the
list. -/
theorem unknown_id_defaults (id : String) (voices : List ConcreteVoice)
    (hid : voiceMap id = none) :
    preferredVoices id = ["female"] ∧
    findPreferred (preferredVoices id) voices
      = voices.find? (fun v => lowerContains v.name "female") ∧
    isFemaleId id = false ∧
    genderFallback id voices
      = voices.find?
          (fun v => lowerContains v.name "male" || lowerContains v.name "man") := by
  have hfem : isFemaleId id = false := by
    have h1 : id ≠ "rachel" := by intro h; subst h; simp [voiceMap] at hid
    have h2 : id ≠ "domi" := by intro h; subst h; simp [voiceMap] at hid
    have h3 : id ≠ "bella" := by intro h; subst h; simp [voiceMap] at hid
    have h4 : id ≠ "elli" := by intro h; subst h; simp [voiceMap] at hid
    simp [isFemaleId, List.contains, h1, h2, h3, h4]
  refine ⟨by simp [preferredVoices, hid], ?_, hfem, ?_⟩
  · simp only [preferredVoices, hid, Option.getD_none, findPreferred]
    congr 1
    funext v
    simp
  · simp only [genderFallback, hfem, Bool.false_eq_true, if_false]

/-- Witness for `unknown_id_defaults` at the id "unknown". -/
theorem unknown_id_defaults_witness :
    voiceMap "unknown" = none ∧
    (preferredVoices "unknown" = ["female"] ∧
     findPreferred (preferredVoices "unknown")
        ([⟨"Brian Male"⟩, ⟨"Anna Woman"⟩] : List ConcreteVoice)
       = ([⟨"Brian Male"⟩, ⟨"Anna Woman"⟩] : List ConcreteVoice).find?
           (fun v => lowerContains v.name "female") ∧
     isFemaleId "unknown" = false ∧
     genderFallback "unknown" ([⟨"Brian Male"⟩, ⟨"Anna Woman"⟩] : List ConcreteVoice)
       = ([⟨"Brian Male"⟩, ⟨"Anna Woman"⟩] : List ConcreteVoice).find?
           (fun v => lowerContains v.name "male" || lowerContains v.name "man")) :=
  ⟨by decide,
   unknown_id_defaults "unknown" [⟨"Brian Male"⟩, ⟨"Anna Woman"⟩] (by decide)⟩
